import Mathlib

/-
Verification of the facturacion-arca backend.

Shallow embedding conventions:
* Python `Decimal` values (quantities, prices, money amounts) are modelled as `ℚ`;
  all `Decimal` operations appearing in the sources are exact at the magnitudes
  involved, so `ℚ` reproduces them.
* Python dicts keyed by small int codes become functions `ℕ → Option _`.
* Fallible code (raised exceptions) returns `Except`/`Option`.
* Calls to the external ARCA authority are made explicit: the service functions
  return, next to their result, the list of outbound calls they performed.
-/

namespace Facturacion

/-! ### Data model: invoice line items (app/schemas/factura.py, app/routers/facturas.py) -/

/-- A line item as consumed by `calcular_totales` (a dict produced by
`ItemFacturaCreate.model_dump`); `alicuota_iva` is optional because the
calculator reads it with `item.get("alicuota_iva", 5)`. -/
structure ItemFactura where
  descripcion : String
  cantidad : ℚ
  precio_unitario : ℚ
  alicuota_iva : Option ℕ
deriving Repr, DecidableEq

/-- The VAT bracket table `ALICUOTAS_IVA` of app/routers/facturas.py:
maps a bracket id to its ARCA code and percentage.  Ids 1 and 2 are absent. -/
def ALICUOTAS_IVA (a : ℕ) : Option (ℕ × ℚ) :=
  if a = 0 then some (3, 0)
  else if a = 3 then some (3, 0)
  else if a = 4 then some (4, 10.5)
  else if a = 5 then some (5, 21)
  else if a = 6 then some (6, 27)
  else none

/-- One entry of the itemized VAT detail sent to ARCA. -/
structure IvaDetalleItem where
  Id : ℕ
  BaseImp : ℚ
  Importe : ℚ
deriving Repr, DecidableEq

/-- The result dict of `calcular_totales`. -/
structure Totales where
  subtotal : ℚ
  iva_21 : ℚ
  iva_10_5 : ℚ
  iva_27 : ℚ
  total : ℚ
  iva_detalle : List IvaDetalleItem
deriving Repr, DecidableEq

/-- Loop state of `calcular_totales`: the running sums and the insertion-ordered
dict `iva_por_alicuota` mapping bracket id to (base, importe). -/
structure TotalesAcc where
  subtotal : ℚ
  iva_21 : ℚ
  iva_10_5 : ℚ
  iva_27 : ℚ
  iva_por_alicuota : List (ℕ × ℚ × ℚ)
deriving Repr, DecidableEq

/-- Update of the insertion-ordered dict `iva_por_alicuota`: add (base, importe)
to the entry of key `a`, appending a fresh entry if the key is new. -/
def updGrupo : List (ℕ × ℚ × ℚ) → ℕ → ℚ → ℚ → List (ℕ × ℚ × ℚ)
  | [], a, base, imp => [(a, base, imp)]
  | (k, b0, m0) :: rest, a, base, imp =>
      if k = a then (k, b0 + base, m0 + imp) :: rest
      else (k, b0, m0) :: updGrupo rest a base imp

/-- Body of the `for item in items` loop of `calcular_totales`. -/
def procesarItem (acc : TotalesAcc) (item : ItemFactura) : TotalesAcc :=
  let cantidad := item.cantidad
  let precio := item.precio_unitario
  let alicuota := item.alicuota_iva.getD 5
  let item_subtotal := cantidad * precio
  let acc1 : TotalesAcc := { acc with subtotal := acc.subtotal + item_subtotal }
  match ALICUOTAS_IVA alicuota with
  | none => acc1
  | some cp =>
      let iva_item := item_subtotal * cp.2 / 100
      let acc2 : TotalesAcc :=
        { acc1 with iva_por_alicuota := updGrupo acc1.iva_por_alicuota alicuota item_subtotal iva_item }
      if alicuota = 5 then { acc2 with iva_21 := acc2.iva_21 + iva_item }
      else if alicuota = 4 then { acc2 with iva_10_5 := acc2.iva_10_5 + iva_item }
      else if alicuota = 6 then { acc2 with iva_27 := acc2.iva_27 + iva_item }
      else acc2

/-- ARCA code of a bracket id, as looked up when building the detail list
(`ALICUOTAS_IVA[alicuota_id]["codigo"]`; the key is always present there). -/
def codigoDe (a : ℕ) : ℕ := ((ALICUOTAS_IVA a).map Prod.fst).getD 0

/-- `calcular_totales` of app/routers/facturas.py. -/
def calcular_totales (items : List ItemFactura) : Totales :=
  let acc := items.foldl procesarItem ⟨0, 0, 0, 0, []⟩
  let iva_detalle :=
    (acc.iva_por_alicuota.filter fun g => decide (0 < g.2.2)).map
      fun g => { Id := codigoDe g.1, BaseImp := g.2.1, Importe := g.2.2 : IvaDetalleItem }
  let total_iva := acc.iva_21 + acc.iva_10_5 + acc.iva_27
  { subtotal := acc.subtotal
    iva_21 := acc.iva_21
    iva_10_5 := acc.iva_10_5
    iva_27 := acc.iva_27
    total := acc.subtotal + total_iva
    iva_detalle := iva_detalle }

/-! ### Derived per-item and per-bracket quantities (used to state properties) -/

/-- Effective bracket of an item: the stored one, or 5 (21%) when absent. -/
def alicuotaEfectiva (i : ItemFactura) : ℕ := i.alicuota_iva.getD 5

/-- Item subtotal: quantity times unit price. -/
def subtotalItem (i : ItemFactura) : ℚ := i.cantidad * i.precio_unitario

/-- Percentage of a bracket id (0 when the id is not in the table). -/
def porcentajeDe (a : ℕ) : ℚ := ((ALICUOTAS_IVA a).map Prod.snd).getD 0

/-- Per-item VAT amount: subtotal times bracket percentage over 100. -/
def ivaItem (i : ItemFactura) : ℚ := subtotalItem i * porcentajeDe (alicuotaEfectiva i) / 100

/-- Taxable base accumulated for bracket `a`: sum of subtotals of its items. -/
def baseAlicuota (items : List ItemFactura) (a : ℕ) : ℚ :=
  ((items.filter fun i => decide (alicuotaEfectiva i = a)).map subtotalItem).sum

/-- VAT amount accumulated for bracket `a`: sum of its items' per-item VAT. -/
def ivaAlicuota (items : List ItemFactura) (a : ℕ) : ℚ :=
  ((items.filter fun i => decide (alicuotaEfectiva i = a)).map ivaItem).sum

/-! ### Behaviour of the totals loop -/

lemma procesarItem_eq (acc : TotalesAcc) (i : ItemFactura) :
    procesarItem acc i =
      { subtotal := acc.subtotal + subtotalItem i
        iva_21 := acc.iva_21 + (if alicuotaEfectiva i = 5 then ivaItem i else 0)
        iva_10_5 := acc.iva_10_5 + (if alicuotaEfectiva i = 4 then ivaItem i else 0)
        iva_27 := acc.iva_27 + (if alicuotaEfectiva i = 6 then ivaItem i else 0)
        iva_por_alicuota :=
          if (ALICUOTAS_IVA (alicuotaEfectiva i)).isSome then
            updGrupo acc.iva_por_alicuota (alicuotaEfectiva i) (subtotalItem i) (ivaItem i)
          else acc.iva_por_alicuota } := by
  by_cases h0 : i.alicuota_iva.getD 5 = 0
  · simp [procesarItem, alicuotaEfectiva, subtotalItem, ivaItem, porcentajeDe, ALICUOTAS_IVA, h0]
  · by_cases h3 : i.alicuota_iva.getD 5 = 3
    · simp [procesarItem, alicuotaEfectiva, subtotalItem, ivaItem, porcentajeDe, ALICUOTAS_IVA,
        h0, h3]
    · by_cases h4 : i.alicuota_iva.getD 5 = 4
      · simp [procesarItem, alicuotaEfectiva, subtotalItem, ivaItem, porcentajeDe, ALICUOTAS_IVA,
          h0, h3, h4]
      · by_cases h5 : i.alicuota_iva.getD 5 = 5
        · simp [procesarItem, alicuotaEfectiva, subtotalItem, ivaItem, porcentajeDe, ALICUOTAS_IVA,
            h0, h3, h4, h5]
        · by_cases h6 : i.alicuota_iva.getD 5 = 6
          · simp [procesarItem, alicuotaEfectiva, subtotalItem, ivaItem, porcentajeDe,
              ALICUOTAS_IVA, h0, h3, h4, h5, h6]
          · simp [procesarItem, alicuotaEfectiva, subtotalItem, ivaItem, porcentajeDe,
              ALICUOTAS_IVA, h0, h3, h4, h5, h6]

lemma baseAlicuota_cons (i : ItemFactura) (rest : List ItemFactura) (a : ℕ) :
    baseAlicuota (i :: rest) a =
      (if alicuotaEfectiva i = a then subtotalItem i else 0) + baseAlicuota rest a := by
  unfold baseAlicuota
  rw [List.filter_cons]
  by_cases h : alicuotaEfectiva i = a <;> simp [h]

lemma ivaAlicuota_cons (i : ItemFactura) (rest : List ItemFactura) (a : ℕ) :
    ivaAlicuota (i :: rest) a =
      (if alicuotaEfectiva i = a then ivaItem i else 0) + ivaAlicuota rest a := by
  unfold ivaAlicuota
  rw [List.filter_cons]
  by_cases h : alicuotaEfectiva i = a <;> simp [h]

lemma baseAlicuota_append (l₁ l₂ : List ItemFactura) (a : ℕ) :
    baseAlicuota (l₁ ++ l₂) a = baseAlicuota l₁ a + baseAlicuota l₂ a := by
  unfold baseAlicuota
  rw [List.filter_append, List.map_append, List.sum_append]

lemma ivaAlicuota_append (l₁ l₂ : List ItemFactura) (a : ℕ) :
    ivaAlicuota (l₁ ++ l₂) a = ivaAlicuota l₁ a + ivaAlicuota l₂ a := by
  unfold ivaAlicuota
  rw [List.filter_append, List.map_append, List.sum_append]

lemma baseAlicuota_singleton (i : ItemFactura) (a : ℕ) :
    baseAlicuota [i] a = if alicuotaEfectiva i = a then subtotalItem i else 0 := by
  rw [baseAlicuota_cons]
  simp [baseAlicuota]

lemma ivaAlicuota_singleton (i : ItemFactura) (a : ℕ) :
    ivaAlicuota [i] a = if alicuotaEfectiva i = a then ivaItem i else 0 := by
  rw [ivaAlicuota_cons]
  simp [ivaAlicuota]

lemma foldl_subtotal (items : List ItemFactura) :
    ∀ acc : TotalesAcc,
      (items.foldl procesarItem acc).subtotal = acc.subtotal + (items.map subtotalItem).sum := by
  induction items with
  | nil => intro acc; simp
  | cons i rest ih =>
      intro acc
      rw [List.foldl_cons, ih, procesarItem_eq]
      simp [add_assoc]

lemma foldl_iva_21 (items : List ItemFactura) :
    ∀ acc : TotalesAcc,
      (items.foldl procesarItem acc).iva_21 = acc.iva_21 + ivaAlicuota items 5 := by
  induction items with
  | nil => intro acc; simp [ivaAlicuota]
  | cons i rest ih =>
      intro acc
      rw [List.foldl_cons, ih, procesarItem_eq, ivaAlicuota_cons]
      simp [add_assoc]

lemma foldl_iva_10_5 (items : List ItemFactura) :
    ∀ acc : TotalesAcc,
      (items.foldl procesarItem acc).iva_10_5 = acc.iva_10_5 + ivaAlicuota items 4 := by
  induction items with
  | nil => intro acc; simp [ivaAlicuota]
  | cons i rest ih =>
      intro acc
      rw [List.foldl_cons, ih, procesarItem_eq, ivaAlicuota_cons]
      simp [add_assoc]

lemma foldl_iva_27 (items : List ItemFactura) :
    ∀ acc : TotalesAcc,
      (items.foldl procesarItem acc).iva_27 = acc.iva_27 + ivaAlicuota items 6 := by
  induction items with
  | nil => intro acc; simp [ivaAlicuota]
  | cons i rest ih =>
      intro acc
      rw [List.foldl_cons, ih, procesarItem_eq, ivaAlicuota_cons]
      simp [add_assoc]

/-! ### The per-bracket grouping dict -/

/-- Key list of the grouping dict. -/
def clavesGrupo (g : List (ℕ × ℚ × ℚ)) : List ℕ := g.map Prod.fst

@[simp] lemma clavesGrupo_nil : clavesGrupo [] = [] := rfl

@[simp] lemma clavesGrupo_cons (k : ℕ) (b m : ℚ) (tl : List (ℕ × ℚ × ℚ)) :
    clavesGrupo ((k, b, m) :: tl) = k :: clavesGrupo tl := rfl

lemma not_mem_of_not_mem_claves {g : List (ℕ × ℚ × ℚ)} {a : ℕ}
    (h : a ∉ clavesGrupo g) (b m : ℚ) : (a, b, m) ∉ g := by
  intro hm
  exact h (by simpa [clavesGrupo] using List.mem_map_of_mem Prod.fst hm)

lemma mem_updGrupo_ne {g : List (ℕ × ℚ × ℚ)} {a k : ℕ} (hk : k ≠ a) (base imp b m : ℚ) :
    ((k, b, m) ∈ updGrupo g a base imp ↔ (k, b, m) ∈ g) := by
  induction g with
  | nil => simp [updGrupo, hk]
  | cons hd tl ih =>
      obtain ⟨k₀, b₀, m₀⟩ := hd
      unfold updGrupo
      by_cases h : k₀ = a
      · subst h
        simp [List.mem_cons, hk]
      · simp [h, List.mem_cons, ih]

lemma mem_updGrupo_self_not_mem {g : List (ℕ × ℚ × ℚ)} {a : ℕ}
    (ha : a ∉ clavesGrupo g) (base imp b m : ℚ) :
    ((a, b, m) ∈ updGrupo g a base imp ↔ b = base ∧ m = imp) := by
  induction g with
  | nil => simp [updGrupo, And.comm, eq_comm]
  | cons hd tl ih =>
      obtain ⟨k₀, b₀, m₀⟩ := hd
      rw [clavesGrupo_cons, List.mem_cons, not_or] at ha
      obtain ⟨hak₀, ha'⟩ := ha
      have hk₀ : k₀ ≠ a := Ne.symm hak₀
      show (a, b, m) ∈
          (if k₀ = a then (k₀, b₀ + base, m₀ + imp) :: tl
           else (k₀, b₀, m₀) :: updGrupo tl a base imp) ↔ _
      rw [if_neg hk₀, List.mem_cons, ih ha']
      constructor
      · rintro (h | h)
        · exact absurd (congrArg Prod.fst h) hak₀
        · exact h
      · exact fun h => Or.inr h

lemma mem_updGrupo_self_mem {g : List (ℕ × ℚ × ℚ)} {a : ℕ} {b₀ m₀ : ℚ}
    (hnd : (clavesGrupo g).Nodup) (hmem : (a, b₀, m₀) ∈ g) (base imp b m : ℚ) :
    ((a, b, m) ∈ updGrupo g a base imp ↔ b = b₀ + base ∧ m = m₀ + imp) := by
  induction g with
  | nil => simp at hmem
  | cons hd tl ih =>
      obtain ⟨k₁, b₁, m₁⟩ := hd
      rw [clavesGrupo_cons] at hnd
      have hnd' : (clavesGrupo tl).Nodup := hnd.of_cons
      have hknotin : k₁ ∉ clavesGrupo tl := (List.nodup_cons.mp hnd).1
      by_cases h : k₁ = a
      · subst h
        have hbm : b₁ = b₀ ∧ m₁ = m₀ := by
          rcases List.mem_cons.mp hmem with h' | h'
          · obtain ⟨h1, h2⟩ := Prod.mk.injEq .. ▸ h'
            obtain ⟨h3, h4⟩ := Prod.mk.injEq .. ▸ h2
            exact ⟨h3.symm, h4.symm⟩
          · exact absurd h' (not_mem_of_not_mem_claves hknotin _ _)
        show (k₁, b, m) ∈
            (if k₁ = k₁ then (k₁, b₁ + base, m₁ + imp) :: tl
             else (k₁, b₁, m₁) :: updGrupo tl k₁ base imp) ↔ _
        rw [if_pos rfl, List.mem_cons]
        constructor
        · rintro (h' | h')
          · obtain ⟨h1, h2⟩ := Prod.mk.injEq .. ▸ h'
            obtain ⟨h3, h4⟩ := Prod.mk.injEq .. ▸ h2
            exact ⟨hbm.1 ▸ h3, hbm.2 ▸ h4⟩
          · exact absurd h' (not_mem_of_not_mem_claves hknotin _ _)
        · rintro ⟨hb, hm⟩
          exact Or.inl (by rw [hb, hm, hbm.1, hbm.2])
      · have hmem' : (a, b₀, m₀) ∈ tl := by
          rcases List.mem_cons.mp hmem with h' | h'
          · exact absurd (congrArg Prod.fst h').symm h
          · exact h'
        show (a, b, m) ∈
            (if k₁ = a then (k₁, b₁ + base, m₁ + imp) :: tl
             else (k₁, b₁, m₁) :: updGrupo tl a base imp) ↔ _
        rw [if_neg h, List.mem_cons, ih hnd' hmem']
        constructor
        · rintro (h' | h')
          · exact absurd (congrArg Prod.fst h') fun hh => h hh.symm
          · exact h'
        · exact fun h' => Or.inr h'

lemma clavesGrupo_updGrupo (g : List (ℕ × ℚ × ℚ)) (a : ℕ) (base imp : ℚ) :
    clavesGrupo (updGrupo g a base imp) =
      if a ∈ clavesGrupo g then clavesGrupo g else clavesGrupo g ++ [a] := by
  induction g with
  | nil => simp [updGrupo]
  | cons hd tl ih =>
      obtain ⟨k₀, b₀, m₀⟩ := hd
      by_cases h : k₀ = a
      · subst h
        show clavesGrupo
            (if k₀ = k₀ then (k₀, b₀ + base, m₀ + imp) :: tl
             else (k₀, b₀, m₀) :: updGrupo tl k₀ base imp) = _
        rw [if_pos rfl, clavesGrupo_cons, clavesGrupo_cons,
          if_pos (List.mem_cons_self k₀ (clavesGrupo tl))]
      · show clavesGrupo
            (if k₀ = a then (k₀, b₀ + base, m₀ + imp) :: tl
             else (k₀, b₀, m₀) :: updGrupo tl a base imp) = _
        rw [if_neg h, clavesGrupo_cons, clavesGrupo_cons, ih]
        by_cases h' : a ∈ clavesGrupo tl
        · rw [if_pos h', if_pos (List.mem_cons_of_mem _ h')]
        · rw [if_neg h', if_neg (by
            rw [List.mem_cons, not_or]
            exact ⟨fun hh => h hh.symm, h'⟩)]
          rw [List.cons_append]

lemma nodup_claves_updGrupo {g : List (ℕ × ℚ × ℚ)} (hnd : (clavesGrupo g).Nodup)
    (a : ℕ) (base imp : ℚ) : (clavesGrupo (updGrupo g a base imp)).Nodup := by
  rw [clavesGrupo_updGrupo]
  by_cases h : a ∈ clavesGrupo g
  · simpa [h]
  · simp only [h, if_neg, not_false_iff]
    simp [List.nodup_append, hnd, h]

lemma exists_entry_of_mem_claves {g : List (ℕ × ℚ × ℚ)} {a : ℕ}
    (h : a ∈ clavesGrupo g) : ∃ b m, (a, b, m) ∈ g := by
  obtain ⟨x, hx, hfst⟩ := List.mem_map.mp h
  obtain ⟨k, b, m⟩ := x
  cases hfst
  exact ⟨b, m, hx⟩

lemma baseAlicuota_eq_zero {l : List ItemFactura} {a : ℕ}
    (h : ∀ i ∈ l, alicuotaEfectiva i ≠ a) : baseAlicuota l a = 0 := by
  unfold baseAlicuota
  rw [List.filter_eq_nil_iff.mpr (by intro i hi; simpa using h i hi)]
  rfl

lemma ivaAlicuota_eq_zero {l : List ItemFactura} {a : ℕ}
    (h : ∀ i ∈ l, alicuotaEfectiva i ≠ a) : ivaAlicuota l a = 0 := by
  unfold ivaAlicuota
  rw [List.filter_eq_nil_iff.mpr (by intro i hi; simpa using h i hi)]
  rfl

lemma char_append_ne {l : List ItemFactura} {i : ItemFactura} {k : ℕ}
    (hk : alicuotaEfectiva i ≠ k) :
    ((∃ i' ∈ l ++ [i], alicuotaEfectiva i' = k) ↔ (∃ i' ∈ l, alicuotaEfectiva i' = k)) ∧
    baseAlicuota (l ++ [i]) k = baseAlicuota l k ∧
    ivaAlicuota (l ++ [i]) k = ivaAlicuota l k := by
  refine ⟨?_, ?_, ?_⟩
  · constructor
    · rintro ⟨i', hi', he⟩
      rcases List.mem_append.mp hi' with h' | h'
      · exact ⟨i', h', he⟩
      · rw [List.mem_singleton.mp h'] at he
        exact absurd he hk
    · rintro ⟨i', hi', he⟩
      exact ⟨i', List.mem_append_left _ hi', he⟩
  · rw [baseAlicuota_append, baseAlicuota_singleton, if_neg hk, add_zero]
  · rw [ivaAlicuota_append, ivaAlicuota_singleton, if_neg hk, add_zero]

/-- Full characterization of the grouping dict built by the totals loop:
keys are pairwise distinct, and an entry `(k, b, m)` is present exactly when
bracket `k` is in the table, some item carries it, and `b`, `m` are the
accumulated base and VAT amounts of that bracket. -/
lemma grupos_foldl (items : List ItemFactura) :
    (clavesGrupo ((items.foldl procesarItem ⟨0, 0, 0, 0, []⟩).iva_por_alicuota)).Nodup ∧
    ∀ k : ℕ, ∀ b m : ℚ,
      ((k, b, m) ∈ (items.foldl procesarItem ⟨0, 0, 0, 0, []⟩).iva_por_alicuota ↔
        ((ALICUOTAS_IVA k).isSome = true ∧ (∃ i ∈ items, alicuotaEfectiva i = k) ∧
         b = baseAlicuota items k ∧ m = ivaAlicuota items k)) := by
  induction items using List.reverseRecOn with
  | nil => simp
  | append_singleton l i ih =>
      obtain ⟨ihnd, ihmem⟩ := ih
      have hfold : (l ++ [i]).foldl procesarItem (⟨0, 0, 0, 0, []⟩ : TotalesAcc) =
          procesarItem (l.foldl procesarItem ⟨0, 0, 0, 0, []⟩) i := by
        rw [List.foldl_append, List.foldl_cons, List.foldl_nil]
      rw [hfold, procesarItem_eq]
      dsimp only
      by_cases hs : (ALICUOTAS_IVA (alicuotaEfectiva i)).isSome = true
      · rw [if_pos hs]
        refine ⟨nodup_claves_updGrupo ihnd _ _ _, ?_⟩
        intro k b m
        by_cases hk : alicuotaEfectiva i = k
        · cases hk
          by_cases hmem : alicuotaEfectiva i ∈
              clavesGrupo (l.foldl procesarItem ⟨0, 0, 0, 0, []⟩).iva_por_alicuota
          · obtain ⟨b₀, m₀, hent⟩ := exists_entry_of_mem_claves hmem
            obtain ⟨-, -, hb₀, hm₀⟩ := (ihmem _ b₀ m₀).mp hent
            rw [mem_updGrupo_self_mem ihnd hent,
              baseAlicuota_append, baseAlicuota_singleton, if_pos rfl,
              ivaAlicuota_append, ivaAlicuota_singleton, if_pos rfl]
            constructor
            · rintro ⟨hb, hm⟩
              exact ⟨hs, ⟨i, by simp, rfl⟩, by rw [hb, hb₀], by rw [hm, hm₀]⟩
            · rintro ⟨-, -, hb, hm⟩
              exact ⟨by rw [hb, hb₀], by rw [hm, hm₀]⟩
          · have hnol : ∀ i' ∈ l, alicuotaEfectiva i' ≠ alicuotaEfectiva i := by
              intro i' hi' he
              exact hmem (List.mem_map_of_mem Prod.fst
                ((ihmem _ (baseAlicuota l (alicuotaEfectiva i))
                  (ivaAlicuota l (alicuotaEfectiva i))).mpr
                  ⟨hs, ⟨i', hi', he⟩, rfl, rfl⟩))
            rw [mem_updGrupo_self_not_mem hmem,
              baseAlicuota_append, baseAlicuota_singleton, if_pos rfl,
              ivaAlicuota_append, ivaAlicuota_singleton, if_pos rfl,
              baseAlicuota_eq_zero hnol, ivaAlicuota_eq_zero hnol, zero_add, zero_add]
            constructor
            · rintro ⟨hb, hm⟩
              exact ⟨hs, ⟨i, by simp, rfl⟩, hb, hm⟩
            · rintro ⟨-, -, hb, hm⟩
              exact ⟨hb, hm⟩
        · obtain ⟨hex, hbase, hiva⟩ := char_append_ne hk
          rw [mem_updGrupo_ne (fun h => hk h.symm), ihmem k b m, hex, hbase, hiva]
      · rw [if_neg hs]
        refine ⟨ihnd, ?_⟩
        intro k b m
        rw [ihmem k b m]
        by_cases hk : alicuotaEfectiva i = k
        · cases hk
          constructor
          · rintro ⟨h1, -⟩; exact absurd h1 hs
          · rintro ⟨h1, -⟩; exact absurd h1 hs
        · obtain ⟨hex, hbase, hiva⟩ := char_append_ne hk
          rw [hex, hbase, hiva]

/-! ### Projections of the totals calculator -/

lemma calcular_subtotal (items : List ItemFactura) :
    (calcular_totales items).subtotal = (items.map subtotalItem).sum := by
  show (items.foldl procesarItem ⟨0, 0, 0, 0, []⟩).subtotal = _
  rw [foldl_subtotal]
  exact zero_add _

lemma calcular_iva_21 (items : List ItemFactura) :
    (calcular_totales items).iva_21 = ivaAlicuota items 5 := by
  show (items.foldl procesarItem ⟨0, 0, 0, 0, []⟩).iva_21 = _
  rw [foldl_iva_21]
  exact zero_add _

lemma calcular_iva_10_5 (items : List ItemFactura) :
    (calcular_totales items).iva_10_5 = ivaAlicuota items 4 := by
  show (items.foldl procesarItem ⟨0, 0, 0, 0, []⟩).iva_10_5 = _
  rw [foldl_iva_10_5]
  exact zero_add _

lemma calcular_iva_27 (items : List ItemFactura) :
    (calcular_totales items).iva_27 = ivaAlicuota items 6 := by
  show (items.foldl procesarItem ⟨0, 0, 0, 0, []⟩).iva_27 = _
  rw [foldl_iva_27]
  exact zero_add _

lemma calcular_total (items : List ItemFactura) :
    (calcular_totales items).total =
      (calcular_totales items).subtotal +
        ((calcular_totales items).iva_21 + (calcular_totales items).iva_10_5 +
          (calcular_totales items).iva_27) := rfl

lemma calcular_iva_detalle (items : List ItemFactura) :
    (calcular_totales items).iva_detalle =
      (((items.foldl procesarItem ⟨0, 0, 0, 0, []⟩).iva_por_alicuota).filter
          fun g => decide (0 < g.2.2)).map
        fun g => ⟨codigoDe g.1, g.2.1, g.2.2⟩ := rfl

/-! ### Sign facts about VAT amounts -/

lemma porcentajeDe_nonneg (a : ℕ) : 0 ≤ porcentajeDe a := by
  unfold porcentajeDe ALICUOTAS_IVA
  split_ifs <;> norm_num

lemma ivaItem_nonneg {i : ItemFactura} (h1 : 0 < i.cantidad) (h2 : 0 ≤ i.precio_unitario) :
    0 ≤ ivaItem i := by
  unfold ivaItem subtotalItem
  exact div_nonneg (mul_nonneg (mul_nonneg h1.le h2) (porcentajeDe_nonneg _)) (by norm_num)

lemma ivaAlicuota_nonneg {items : List ItemFactura}
    (hval : ∀ i ∈ items, 0 < i.cantidad ∧ 0 ≤ i.precio_unitario) (a : ℕ) :
    0 ≤ ivaAlicuota items a := by
  unfold ivaAlicuota
  apply List.sum_nonneg
  intro x hx
  obtain ⟨i, hi, rfl⟩ := List.mem_map.mp hx
  have h := hval i (List.mem_of_mem_filter hi)
  exact ivaItem_nonneg h.1 h.2

lemma ivaAlicuota_ne_exists {items : List ItemFactura} {a : ℕ}
    (h : ivaAlicuota items a ≠ 0) : ∃ i ∈ items, alicuotaEfectiva i = a := by
  by_contra hno
  push_neg at hno
  exact h (ivaAlicuota_eq_zero hno)

lemma ivaAlicuota_of_porcentaje_cero {a : ℕ} (hp : porcentajeDe a = 0)
    (items : List ItemFactura) : ivaAlicuota items a = 0 := by
  unfold ivaAlicuota
  apply List.sum_eq_zero
  intro x hx
  obtain ⟨i, hi, rfl⟩ := List.mem_map.mp hx
  have ha : alicuotaEfectiva i = a := by simpa using (List.mem_filter.mp hi).2
  unfold ivaItem
  rw [ha, hp, mul_zero, zero_div]

lemma isSome_ALICUOTAS (a : ℕ) :
    (ALICUOTAS_IVA a).isSome = true ↔ a ∈ ([0, 3, 4, 5, 6] : List ℕ) := by
  unfold ALICUOTAS_IVA
  split_ifs with h0 h3 h4 h5 h6 <;> simp_all

/-! ### Claims about the Totals Calculator -/

/-- C3: for every list of line items, `calcular_totales` returns a net subtotal
equal to the sum of all item subtotals (quantity times unit price) and a grand
total equal to that net subtotal plus the sum of the three named VAT buckets;
each bucket collects exactly the per-item VAT of its own bracket (21% is
bracket 5, 10.5% is bracket 4, 27% is bracket 6), so the not-taxed and 0%
brackets contribute nothing beyond their net subtotals. -/
theorem claim_C3 (items : List ItemFactura) :
    (calcular_totales items).subtotal = (items.map subtotalItem).sum ∧
    (calcular_totales items).total =
      (calcular_totales items).subtotal +
        ((calcular_totales items).iva_21 + (calcular_totales items).iva_10_5 +
          (calcular_totales items).iva_27) ∧
    (calcular_totales items).iva_21 = ivaAlicuota items 5 ∧
    (calcular_totales items).iva_10_5 = ivaAlicuota items 4 ∧
    (calcular_totales items).iva_27 = ivaAlicuota items 6 :=
  ⟨calcular_subtotal items, calcular_total items, calcular_iva_21 items,
    calcular_iva_10_5 items, calcular_iva_27 items⟩

/-- C4: for schema-valid items (positive quantity, nonnegative price) the
itemized VAT detail contains exactly one entry per bracket with non-zero
accumulated VAT — the entry carrying the bracket's ARCA code, the sum of the
bracket's item subtotals as base and the sum of its per-item VAT amounts —
and brackets with zero VAT (in particular not-taxed and 0%) never appear. -/
theorem claim_C4 (items : List ItemFactura)
    (hval : ∀ i ∈ items, 0 < i.cantidad ∧ 0 ≤ i.precio_unitario) :
    (∀ e : IvaDetalleItem, e ∈ (calcular_totales items).iva_detalle ↔
        ∃ a, a ∈ ([0, 3, 4, 5, 6] : List ℕ) ∧ ivaAlicuota items a ≠ 0 ∧
          e = ⟨codigoDe a, baseAlicuota items a, ivaAlicuota items a⟩) ∧
    (calcular_totales items).iva_detalle.length =
      (([0, 3, 4, 5, 6] : List ℕ).filter fun a => decide (ivaAlicuota items a ≠ 0)).length ∧
    (∀ e ∈ (calcular_totales items).iva_detalle, e.Id = 4 ∨ e.Id = 5 ∨ e.Id = 6) := by
  obtain ⟨hnd, hchar⟩ := grupos_foldl items
  have hmem : ∀ e : IvaDetalleItem, e ∈ (calcular_totales items).iva_detalle ↔
      ∃ a, a ∈ ([0, 3, 4, 5, 6] : List ℕ) ∧ ivaAlicuota items a ≠ 0 ∧
        e = ⟨codigoDe a, baseAlicuota items a, ivaAlicuota items a⟩ := by
    intro e
    rw [calcular_iva_detalle]
    simp only [List.mem_map, List.mem_filter]
    constructor
    · rintro ⟨⟨k, b, m⟩, ⟨hg, hpos⟩, rfl⟩
      obtain ⟨hsome, hex, hb, hm⟩ := (hchar k b m).mp hg
      have hpos' : 0 < m := of_decide_eq_true hpos
      refine ⟨k, (isSome_ALICUOTAS k).mp hsome, ?_, ?_⟩
      · rw [← hm]; exact hpos'.ne'
      · rw [hb, hm]
    · rintro ⟨a, hdom, hne, rfl⟩
      refine ⟨(a, baseAlicuota items a, ivaAlicuota items a),
        ⟨(hchar a _ _).mpr ⟨(isSome_ALICUOTAS a).mpr hdom, ivaAlicuota_ne_exists hne,
          rfl, rfl⟩, ?_⟩, rfl⟩
      exact decide_eq_true (lt_of_le_of_ne (ivaAlicuota_nonneg hval a) (Ne.symm hne))
  refine ⟨hmem, ?_, ?_⟩
  · rw [calcular_iva_detalle, List.length_map]
    have hks : List.Perm
        ((((items.foldl procesarItem ⟨0, 0, 0, 0, []⟩).iva_por_alicuota).filter
          (fun g => decide (0 < g.2.2))).map Prod.fst)
        (([0, 3, 4, 5, 6] : List ℕ).filter fun a => decide (ivaAlicuota items a ≠ 0)) := by
      apply (List.perm_ext_iff_of_nodup ?_ ?_).mpr
      · intro k
        simp only [List.mem_map, List.mem_filter]
        constructor
        · rintro ⟨⟨k', b, m⟩, ⟨hg, hpos⟩, rfl⟩
          obtain ⟨hsome, hex, hb, hm⟩ := (hchar k' b m).mp hg
          have hpos' : 0 < m := of_decide_eq_true hpos
          exact ⟨(isSome_ALICUOTAS k').mp hsome,
            decide_eq_true (by rw [← hm]; exact hpos'.ne')⟩
        · rintro ⟨hdom, hne⟩
          have hne' : ivaAlicuota items k ≠ 0 := of_decide_eq_true hne
          refine ⟨(k, baseAlicuota items k, ivaAlicuota items k),
            ⟨(hchar k _ _).mpr ⟨(isSome_ALICUOTAS k).mpr hdom,
              ivaAlicuota_ne_exists hne', rfl, rfl⟩, ?_⟩, rfl⟩
          exact decide_eq_true (lt_of_le_of_ne (ivaAlicuota_nonneg hval k) (Ne.symm hne'))
      · exact ((List.filter_sublist _).map Prod.fst).nodup hnd
      · exact (by decide : ([0, 3, 4, 5, 6] : List ℕ).Nodup).filter _
    have hlen := hks.length_eq
    rwa [List.length_map] at hlen
  · intro e he
    obtain ⟨a, hdom, hne, rfl⟩ := (hmem e).mp he
    have h0 : porcentajeDe 0 = 0 := by norm_num [porcentajeDe, ALICUOTAS_IVA]
    have h3 : porcentajeDe 3 = 0 := by norm_num [porcentajeDe, ALICUOTAS_IVA]
    simp only [List.mem_cons, List.not_mem_nil, or_false] at hdom
    rcases hdom with rfl | rfl | rfl | rfl | rfl
    · exact absurd (ivaAlicuota_of_porcentaje_cero h0 items) hne
    · exact absurd (ivaAlicuota_of_porcentaje_cero h3 items) hne
    · exact Or.inl (by norm_num [codigoDe, ALICUOTAS_IVA])
    · exact Or.inr (Or.inl (by norm_num [codigoDe, ALICUOTAS_IVA]))
    · exact Or.inr (Or.inr (by norm_num [codigoDe, ALICUOTAS_IVA]))

/-- C10: items carrying bracket codes 1 or 2 (admitted by the item schema but
absent from the bracket table) raise no error: their subtotals enter the net
subtotal and the grand total, they contribute zero VAT, zero bucket amounts and
no VAT-detail entry; an item with no bracket code at all behaves exactly as one
carrying code 5 (21%). -/
theorem claim_C10 :
    (∀ items : List ItemFactura,
      (∀ i ∈ items, alicuotaEfectiva i = 1 ∨ alicuotaEfectiva i = 2) →
      (calcular_totales items).subtotal = (items.map subtotalItem).sum ∧
      (calcular_totales items).iva_21 = 0 ∧
      (calcular_totales items).iva_10_5 = 0 ∧
      (calcular_totales items).iva_27 = 0 ∧
      (calcular_totales items).iva_detalle = [] ∧
      (calcular_totales items).total = (items.map subtotalItem).sum) ∧
    (∀ items : List ItemFactura,
      calcular_totales (items.map fun i => { i with alicuota_iva := none }) =
        calcular_totales (items.map fun i => { i with alicuota_iva := some 5 })) := by
  constructor
  · intro items h
    have h5 : ivaAlicuota items 5 = 0 :=
      ivaAlicuota_eq_zero (by intro i hi he; rcases h i hi with h' | h' <;> omega)
    have h4 : ivaAlicuota items 4 = 0 :=
      ivaAlicuota_eq_zero (by intro i hi he; rcases h i hi with h' | h' <;> omega)
    have h6 : ivaAlicuota items 6 = 0 :=
      ivaAlicuota_eq_zero (by intro i hi he; rcases h i hi with h' | h' <;> omega)
    obtain ⟨-, hchar⟩ := grupos_foldl items
    have hgr : (items.foldl procesarItem ⟨0, 0, 0, 0, []⟩).iva_por_alicuota = [] := by
      apply List.eq_nil_iff_forall_not_mem.mpr
      rintro ⟨k, b, m⟩ hg
      obtain ⟨hsome, ⟨i, hi, he⟩, -, -⟩ := (hchar k b m).mp hg
      have := (isSome_ALICUOTAS k).mp hsome
      rcases h i hi with h' | h' <;> rw [he] at h' <;> subst h' <;> simp at this
    refine ⟨calcular_subtotal items, ?_, ?_, ?_, ?_, ?_⟩
    · rw [calcular_iva_21, h5]
    · rw [calcular_iva_10_5, h4]
    · rw [calcular_iva_27, h6]
    · rw [calcular_iva_detalle, hgr]; rfl
    · rw [calcular_total, calcular_subtotal, calcular_iva_21, calcular_iva_10_5,
        calcular_iva_27, h5, h4, h6]
      ring
  · intro items
    have hfold : ∀ acc : TotalesAcc,
        (items.map fun i => { i with alicuota_iva := none }).foldl procesarItem acc =
          (items.map fun i => { i with alicuota_iva := some 5 }).foldl procesarItem acc := by
      induction items with
      | nil => intro acc; rfl
      | cons i rest ih =>
          intro acc
          rw [List.map_cons, List.map_cons, List.foldl_cons, List.foldl_cons]
          have hstep : procesarItem acc { i with alicuota_iva := none } =
              procesarItem acc { i with alicuota_iva := some 5 } := rfl
          rw [hstep, ih]
    have hF : ∀ l : List ItemFactura, calcular_totales l =
        (fun acc : TotalesAcc =>
          ({ subtotal := acc.subtotal, iva_21 := acc.iva_21, iva_10_5 := acc.iva_10_5,
             iva_27 := acc.iva_27,
             total := acc.subtotal + (acc.iva_21 + acc.iva_10_5 + acc.iva_27),
             iva_detalle := (acc.iva_por_alicuota.filter fun g => decide (0 < g.2.2)).map
               fun g => ⟨codigoDe g.1, g.2.1, g.2.2⟩ } : Totales))
          (l.foldl procesarItem ⟨0, 0, 0, 0, []⟩) := fun l => rfl
    rw [hF, hF, hfold]

/-- C8 (exact-arithmetic reference point): on the order `[quantity 3, unit
price 0.1, 21% bracket]` the Totals Calculator, working in exact decimal
arithmetic, produces exactly 3/10 as net subtotal, 63/1000 as VAT and 363/1000
as grand total.  The order-invoicing path of app/routers/ordenes_tn.py computes
the same quantities in binary floating point, where 3 * 0.1 is not 3/10. -/
theorem claim_C8_decimal_exacto :
    calcular_totales [⟨"producto", 3, 1 / 10, some 5⟩] =
      { subtotal := 3 / 10, iva_21 := 63 / 1000, iva_10_5 := 0, iva_27 := 0,
        total := 363 / 1000, iva_detalle := [⟨5, 3 / 10, 63 / 1000⟩] } := by
  simp only [calcular_totales, procesarItem, ALICUOTAS_IVA, updGrupo, codigoDe,
    List.foldl_cons, List.foldl_nil, List.filter, List.map]
  norm_num

/-! ### CUIT validation (app/utils/cuit.py and app/schemas/cliente.py) -/

/-- Characters removed by `re.sub(r"[-\s]", "", cuit)`. -/
def esGuionOEspacio (c : Char) : Bool :=
  c = '-' || c = ' ' || c = '\t' || c = '\n' || c = '\r' ||
  c = Char.ofNat 11 || c = Char.ofNat 12

/-- Cleaning step shared by both validators: drop dashes and whitespace. -/
def limpiarCuit (s : String) : String :=
  String.mk (s.toList.filter fun c => !(esGuionOEspacio c))

/-- Numeric value of a digit character. -/
def valorDigito (c : Char) : ℕ := c.toNat - 48

/-- The mod-11 multipliers applied to the first ten digits. -/
def multiplicadores : List ℕ := [5, 4, 3, 2, 7, 6, 5, 4, 3, 2]

/-- The weighted sum over the first ten digits. -/
def sumaCuit (ds : List ℕ) : ℕ := (List.zipWith (· * ·) ds multiplicadores).sum

/-- `validar_cuit` of app/utils/cuit.py (returns a bool). -/
def validar_cuit (cuit : String) : Bool :=
  let cuit_limpio := limpiarCuit cuit
  if ¬(cuit_limpio.toList.all Char.isDigit) ∨ cuit_limpio.length ≠ 11 then false
  else
    let ds := cuit_limpio.toList.map valorDigito
    let resto := sumaCuit ds % 11
    if resto = 0 then decide (ds.getD 10 0 = 0)
    else if resto = 1 then false
    else decide (ds.getD 10 0 = 11 - resto)

/-- `validar_cuit` of app/schemas/cliente.py (returns the cleaned CUIT or
raises, modelled as `Option`). -/
def validar_cuit_schema (cuit : String) : Option String :=
  let cuit_limpio := limpiarCuit cuit
  if ¬(cuit_limpio.toList.all Char.isDigit) ∨ cuit_limpio.length ≠ 11 then none
  else
    let ds := cuit_limpio.toList.map valorDigito
    let resto := sumaCuit ds % 11
    let digito_verificador := if resto ≠ 0 then 11 - resto else 0
    if resto = 1 ∨ ds.getD 10 0 ≠ digito_verificador then none
    else some cuit_limpio

/-- Remainder of the weighted digit sum mod 11, on the cleaned string. -/
def restoCuit (s : String) : ℕ :=
  sumaCuit ((limpiarCuit s).toList.map valorDigito) % 11

/-- C7: CUIT validation implements the mod-11 checksum with multipliers
[5,4,3,2,7,6,5,4,3,2]: the known-valid CUIT "30500010912" is accepted by both
validators, the same ten leading digits with any other final digit are
rejected, any string whose cleaned form is not exactly 11 digits is rejected,
and any remainder-1 case is rejected. -/
theorem claim_C7 :
    validar_cuit "30500010912" = true ∧
    validar_cuit_schema "30500010912" = some "30500010912" ∧
    (∀ n : ℕ, n < 10 → n ≠ 2 →
      validar_cuit (String.push "3050001091" (Char.ofNat (48 + n))) = false ∧
      validar_cuit_schema (String.push "3050001091" (Char.ofNat (48 + n))) = none) ∧
    (∀ s : String,
      ¬((limpiarCuit s).toList.all Char.isDigit = true ∧ (limpiarCuit s).length = 11) →
      validar_cuit s = false) ∧
    (∀ s : String, restoCuit s = 1 → validar_cuit s = false) := by
  refine ⟨by decide, by decide, by decide, ?_, ?_⟩
  · intro s h
    have hcond : ¬((limpiarCuit s).toList.all Char.isDigit = true) ∨
        (limpiarCuit s).length ≠ 11 := by tauto
    unfold validar_cuit
    rw [if_pos hcond]
  · intro s h
    unfold restoCuit at h
    unfold validar_cuit
    dsimp only
    split_ifs with hg h0
    · rfl
    · omega
    · simp [h]

/-! ### ARCA service (app/services/arca_service.py)

The external authority (the `afip` SDK plus the `settings` global) is modelled
by `ArcaEnv`; the service functions return, together with their result, the
list of outbound calls they performed, so call-count properties are explicit. -/

/-- The voucher record assembled by `emitir_factura` and passed to
`createVoucher` (dates encoded as their yyyymmdd integers; the optional keys
`Iva`, `FchServDesde`, `FchServHasta`, `FchVtoPago` are `none` when absent). -/
structure FEVoucherData where
  CantReg : ℕ
  PtoVta : ℕ
  CbteTipo : ℕ
  Concepto : ℕ
  DocTipo : ℕ
  DocNro : ℕ
  CondicionIVAReceptorId : ℕ
  CbteDesde : ℕ
  CbteHasta : ℕ
  CbteFch : ℕ
  ImpTotal : ℚ
  ImpTotConc : ℚ
  ImpNeto : ℚ
  ImpOpEx : ℚ
  ImpIVA : ℚ
  ImpTrib : ℚ
  MonId : String
  MonCotiz : ℚ
  Iva : Option (List IvaDetalleItem)
  FchServDesde : Option ℕ
  FchServHasta : Option ℕ
  FchVtoPago : Option ℕ
deriving Repr, DecidableEq

/-- Response of a successful `createVoucher` call (the `Resultado` key may be
absent, read with `.get("Resultado", "A")`). -/
structure CreateVoucherResult where
  CAE : String
  CAEFchVto : String
  Resultado : Option String
deriving Repr, DecidableEq

/-- One outbound call to the external authority. -/
inductive ArcaCall where
  | getLastVoucher (puntoVenta tipoComprobante : ℕ)
  | createVoucher (data : FEVoucherData)
deriving Repr, DecidableEq

/-- The external world as seen by the service: the authority's last authorized
voucher number per (sales point, voucher class), its response to a voucher
creation (an exception is an `.error`), and the configured sales point. -/
structure ArcaEnv where
  lastVoucher : ℕ → ℕ → ℕ
  createVoucher : FEVoucherData → Except String CreateVoucherResult
  arca_punto_venta : ℕ

/-- Result dict of `emitir_factura`. -/
structure EmisionResult where
  cae : String
  vencimiento_cae : String
  numero : ℕ
  resultado : String
deriving Repr, DecidableEq

/-- `ARCAService.get_ultimo_comprobante`: resolves the sales point
(`punto_venta or settings.arca_punto_venta`, where 0/None are falsy) and asks
the authority for the last authorized voucher number. -/
def get_ultimo_comprobante (env : ArcaEnv) (tipo_comprobante : ℕ)
    (punto_venta : Option ℕ) : ℕ × List ArcaCall :=
  let pv := match punto_venta with
    | some p => if p = 0 then env.arca_punto_venta else p
    | none => env.arca_punto_venta
  (env.lastVoucher pv tipo_comprobante, [ArcaCall.getLastVoucher pv tipo_comprobante])

/-- `ARCAService.emitir_factura`: fetches the last voucher number, submits the
single voucher `last + 1` and returns the CAE data; any submission error is
propagated unchanged.  The second component lists the calls made to the
authority. -/
def emitir_factura (env : ArcaEnv) (tipo_comprobante punto_venta concepto
    tipo_doc_receptor nro_doc_receptor condicion_iva_receptor : ℕ)
    (importe_total importe_neto importe_iva : ℚ)
    (iva_detalle : List IvaDetalleItem) (fecha : Option ℕ) (today : ℕ)
    (fecha_servicio_desde fecha_servicio_hasta fecha_vencimiento_pago : Option ℕ) :
    Except String EmisionResult × List ArcaCall :=
  let ultimo := get_ultimo_comprobante env tipo_comprobante (some punto_venta)
  let ultimo_nro := ultimo.1
  let nuevo_nro := ultimo_nro + 1
  let fecha_int := fecha.getD today
  let es_comprobante_c := tipo_comprobante ∈ ([11, 12, 13] : List ℕ)
  let data0 : FEVoucherData :=
    { CantReg := 1
      PtoVta := punto_venta
      CbteTipo := tipo_comprobante
      Concepto := concepto
      DocTipo := tipo_doc_receptor
      DocNro := nro_doc_receptor
      CondicionIVAReceptorId := condicion_iva_receptor
      CbteDesde := nuevo_nro
      CbteHasta := nuevo_nro
      CbteFch := fecha_int
      ImpTotal := importe_total
      ImpTotConc := 0
      ImpNeto := if es_comprobante_c then importe_total else importe_neto
      ImpOpEx := 0
      ImpIVA := if es_comprobante_c then 0 else importe_iva
      ImpTrib := 0
      MonId := "PES"
      MonCotiz := 1
      Iva := none
      FchServDesde := none
      FchServHasta := none
      FchVtoPago := none }
  let data1 :=
    if iva_detalle ≠ [] ∧ tipo_comprobante ∈ ([1, 2, 3, 6, 7, 8] : List ℕ) then
      { data0 with Iva := some iva_detalle }
    else data0
  let data :=
    if concepto ∈ ([2, 3] : List ℕ) then
      { data1 with FchServDesde := fecha_servicio_desde,
                   FchServHasta := fecha_servicio_hasta,
                   FchVtoPago := fecha_vencimiento_pago }
    else data1
  let calls := ultimo.2 ++ [ArcaCall.createVoucher data]
  ((env.createVoucher data).map fun resultado =>
      ⟨resultado.CAE, resultado.CAEFchVto, nuevo_nro, resultado.Resultado.getD "A"⟩,
   calls)

/-- Recognizer for voucher-creation calls. -/
def esCreateVoucher : ArcaCall → Bool
  | ArcaCall.createVoucher _ => true
  | _ => false

lemma except_map_ok {ε α β : Type} (f : α → β) (x : Except ε α) (b : β)
    (h : x.map f = Except.ok b) : ∃ a, x = Except.ok a ∧ b = f a := by
  cases x with
  | ok a => exact ⟨a, rfl, by simpa [Except.map] using h.symm⟩
  | error e => simp [Except.map] at h

/-- C1: for letter-C voucher classes (11, 12, 13) the record submitted to the
authority reports `ImpNeto` equal to the grand total, `ImpIVA` exactly 0, and
carries no itemized `Iva` detail, whatever VAT detail the items produced. -/
theorem claim_C1 (env : ArcaEnv) (tipo_comprobante punto_venta concepto
    tipo_doc nro_doc cond_iva : ℕ) (importe_total importe_neto importe_iva : ℚ)
    (iva_detalle : List IvaDetalleItem) (fecha : Option ℕ) (today : ℕ)
    (fsd fsh fvp : Option ℕ)
    (hC : tipo_comprobante ∈ ([11, 12, 13] : List ℕ)) :
    ∀ d : FEVoucherData,
      ArcaCall.createVoucher d ∈
        (emitir_factura env tipo_comprobante punto_venta concepto tipo_doc nro_doc
          cond_iva importe_total importe_neto importe_iva iva_detalle fecha today
          fsd fsh fvp).2 →
      d.ImpNeto = importe_total ∧ d.ImpIVA = 0 ∧ d.Iva = none := by
  intro d hd
  unfold emitir_factura get_ultimo_comprobante at hd
  dsimp only at hd
  simp only [List.mem_append, List.mem_cons, List.not_mem_nil, or_false,
    List.mem_singleton, reduceCtorEq, false_or] at hd
  obtain rfl := ArcaCall.createVoucher.inj hd
  simp only [List.mem_cons, List.not_mem_nil, or_false] at hC
  by_cases h2 : concepto = 2 ∨ concepto = 3 <;>
    rcases hC with rfl | rfl | rfl <;>
      simp [h2]

/-- C6: a single invocation of the Voucher Submission Adapter submits exactly
the candidate number last+1 for its (class, sales point), with
`CbteDesde = CbteHasta = last + 1`, makes exactly one voucher-creation call to
the authority (no retry), and on success reports that same number. -/
theorem claim_C6 (env : ArcaEnv) (tipo_comprobante punto_venta concepto
    tipo_doc nro_doc cond_iva : ℕ) (importe_total importe_neto importe_iva : ℚ)
    (iva_detalle : List IvaDetalleItem) (fecha : Option ℕ) (today : ℕ)
    (fsd fsh fvp : Option ℕ) (hpv : punto_venta ≠ 0) :
    ((emitir_factura env tipo_comprobante punto_venta concepto tipo_doc nro_doc
        cond_iva importe_total importe_neto importe_iva iva_detalle fecha today
        fsd fsh fvp).2.countP esCreateVoucher = 1) ∧
    (∀ d : FEVoucherData,
      ArcaCall.createVoucher d ∈
        (emitir_factura env tipo_comprobante punto_venta concepto tipo_doc nro_doc
          cond_iva importe_total importe_neto importe_iva iva_detalle fecha today
          fsd fsh fvp).2 →
      d.CbteDesde = env.lastVoucher punto_venta tipo_comprobante + 1 ∧
      d.CbteHasta = env.lastVoucher punto_venta tipo_comprobante + 1) ∧
    (∀ r : EmisionResult,
      (emitir_factura env tipo_comprobante punto_venta concepto tipo_doc nro_doc
        cond_iva importe_total importe_neto importe_iva iva_detalle fecha today
        fsd fsh fvp).1 = Except.ok r →
      r.numero = env.lastVoucher punto_venta tipo_comprobante + 1) := by
  refine ⟨?_, ?_, ?_⟩
  · unfold emitir_factura get_ultimo_comprobante
    dsimp only
    rw [if_neg hpv]
    simp [esCreateVoucher, List.countP_cons, List.countP_nil]
  · intro d hd
    unfold emitir_factura get_ultimo_comprobante at hd
    dsimp only at hd
    rw [if_neg hpv] at hd
    simp only [List.mem_append, List.mem_cons, List.not_mem_nil, or_false,
      List.mem_singleton, reduceCtorEq, false_or] at hd
    obtain rfl := ArcaCall.createVoucher.inj hd
    constructor <;> (split_ifs <;> rfl)
  · intro r hr
    unfold emitir_factura get_ultimo_comprobante at hr
    dsimp only at hr
    rw [if_neg hpv] at hr
    obtain ⟨a, -, rfl⟩ := except_map_ok _ _ _ hr
    rfl

/-! ### Invoice creation endpoint (app/routers/facturas.py, `crear_factura`) -/

/-- The `CONDICION_IVA_ARCA` dict (RG 5616 receiver codes). -/
def CONDICION_IVA_ARCA (c : String) : Option ℕ :=
  if c = "Responsable Inscripto" then some 1
  else if c = "Monotributista" then some 6
  else if c = "Exento" then some 4
  else if c = "Consumidor Final" then some 5
  else if c = "No Responsable" then some 7
  else none

/-- A customer row as stored in the database (`Cliente` model); the tax ID is
kept as its numeric value, matching the `int(cliente.cuit)` reads. -/
structure Cliente where
  razon_social : String
  cuit : ℕ
  condicion_iva : String
deriving Repr, DecidableEq

/-- A line item of a `FacturaCreate` request; `alicuota_iva` always present
(the schema defaults it to 5). -/
structure ItemFacturaCreate where
  descripcion : String
  cantidad : ℚ
  precio_unitario : ℚ
  alicuota_iva : ℕ
deriving Repr, DecidableEq

/-- `model_dump` of a request item, as consumed by `calcular_totales`. -/
def itemDump (i : ItemFacturaCreate) : ItemFactura :=
  ⟨i.descripcion, i.cantidad, i.precio_unitario, some i.alicuota_iva⟩

/-- Body of a `FacturaCreate` request (customer resolved separately). -/
structure FacturaCreate where
  tipo_comprobante : ℕ
  concepto : ℕ
  items : List ItemFacturaCreate
  fecha : Option ℕ
  observaciones : Option String
deriving Repr, DecidableEq

/-- An HTTP error response raised by the endpoint. -/
structure HTTPException where
  status_code : ℕ
  detail : String
deriving Repr, DecidableEq

/-- Detail message of the class-A/customer mismatch error; it names the
offending customer and its tax category. -/
def detalleErrorFacturaA (razon_social condicion_iva : String) : String :=
  "Factura A solo puede emitirse a clientes Responsable Inscripto. El cliente '" ++
    razon_social ++ "' es '" ++ condicion_iva ++ "'. Use Factura B para este cliente."

/-- Detail message of the class-B/Responsable-Inscripto mismatch error. -/
def detalleErrorFacturaB (razon_social : String) : String :=
  "Factura B no puede emitirse a clientes Responsable Inscripto. " ++
    "Use Factura A para el cliente '" ++ razon_social ++ "'."

/-- The invoice row persisted after a successful authorization. -/
structure FacturaRecord where
  tipo_comprobante : ℕ
  punto_venta : ℕ
  numero : ℕ
  fecha : ℕ
  cae : String
  vencimiento_cae : String
  estado : String
  subtotal : ℚ
  iva_21 : ℚ
  iva_10_5 : ℚ
  iva_27 : ℚ
  total : ℚ
  concepto : ℕ
  observaciones : Option String
deriving Repr, DecidableEq

/-- `crear_factura` of app/routers/facturas.py: looks up the customer,
validates class/category compatibility, computes totals, resolves the receiver
document, submits through the ARCA service and persists.  Returns the HTTP
outcome together with the list of calls made to the authority. -/
def crear_factura (cliente_lookup : Option Cliente) (factura_data : FacturaCreate)
    (env : ArcaEnv) (today : ℕ) :
    Except HTTPException FacturaRecord × List ArcaCall :=
  match cliente_lookup with
  | none => (Except.error ⟨404, "Cliente no encontrado"⟩, [])
  | some cliente =>
    if factura_data.tipo_comprobante ∈ ([1, 2, 3] : List ℕ) ∧
        cliente.condicion_iva ≠ "Responsable Inscripto" then
      (Except.error ⟨400, detalleErrorFacturaA cliente.razon_social cliente.condicion_iva⟩, [])
    else if factura_data.tipo_comprobante ∈ ([6, 7, 8] : List ℕ) ∧
        cliente.condicion_iva = "Responsable Inscripto" then
      (Except.error ⟨400, detalleErrorFacturaB cliente.razon_social⟩, [])
    else
      let totales := calcular_totales (factura_data.items.map itemDump)
      let td : ℕ × ℕ :=
        if cliente.condicion_iva = "Consumidor Final" then
          let tipo_doc := if totales.total < 23265 then 99 else 96
          (tipo_doc, if tipo_doc = 99 then 0 else cliente.cuit)
        else (80, cliente.cuit)
      let condicion_iva_receptor := (CONDICION_IVA_ARCA cliente.condicion_iva).getD 5
      let r := emitir_factura env factura_data.tipo_comprobante env.arca_punto_venta
        factura_data.concepto td.1 td.2 condicion_iva_receptor totales.total
        totales.subtotal (totales.iva_21 + totales.iva_10_5 + totales.iva_27)
        totales.iva_detalle factura_data.fecha today none none none
      (match r.1 with
       | Except.error e =>
           Except.error ⟨500, "Error al emitir factura en ARCA: " ++ e⟩
       | Except.ok resultado_arca =>
           Except.ok
             { tipo_comprobante := factura_data.tipo_comprobante
               punto_venta := env.arca_punto_venta
               numero := resultado_arca.numero
               fecha := factura_data.fecha.getD today
               cae := resultado_arca.cae
               vencimiento_cae := resultado_arca.vencimiento_cae
               estado := "autorizada"
               subtotal := totales.subtotal
               iva_21 := totales.iva_21
               iva_10_5 := totales.iva_10_5
               iva_27 := totales.iva_27
               total := totales.total
               concepto := factura_data.concepto
               observaciones := factura_data.observaciones },
       r.2)

/-- C2: a class-A request (codes 1, 2, 3) for a customer that is not
Responsable Inscripto, and a class-B request (codes 6, 7, 8) for a Responsable
Inscripto customer, both fail with a 400 validation error naming the offending
category, and no call to the external authority is made; class-C codes
(11, 12, 13) pass validation for every category and reach submission. -/
theorem claim_C2 (cliente : Cliente) (factura_data : FacturaCreate) (env : ArcaEnv)
    (today : ℕ) :
    (factura_data.tipo_comprobante ∈ ([1, 2, 3] : List ℕ) →
      cliente.condicion_iva ≠ "Responsable Inscripto" →
      (crear_factura (some cliente) factura_data env today).1 =
        Except.error ⟨400, detalleErrorFacturaA cliente.razon_social cliente.condicion_iva⟩ ∧
      (crear_factura (some cliente) factura_data env today).2 = []) ∧
    (factura_data.tipo_comprobante ∈ ([6, 7, 8] : List ℕ) →
      cliente.condicion_iva = "Responsable Inscripto" →
      (crear_factura (some cliente) factura_data env today).1 =
        Except.error ⟨400, detalleErrorFacturaB cliente.razon_social⟩ ∧
      (crear_factura (some cliente) factura_data env today).2 = []) ∧
    (factura_data.tipo_comprobante ∈ ([11, 12, 13] : List ℕ) →
      ∃ d : FEVoucherData,
        ArcaCall.createVoucher d ∈ (crear_factura (some cliente) factura_data env today).2) := by
  refine ⟨?_, ?_, ?_⟩
  · intro h1 h2
    unfold crear_factura
    dsimp only
    rw [if_pos ⟨h1, h2⟩]
    exact ⟨rfl, rfl⟩
  · intro h1 h2
    unfold crear_factura
    dsimp only
    have hnotA : ¬(factura_data.tipo_comprobante ∈ ([1, 2, 3] : List ℕ) ∧
        cliente.condicion_iva ≠ "Responsable Inscripto") := by
      rintro ⟨-, hne⟩; exact hne h2
    rw [if_neg hnotA, if_pos ⟨h1, h2⟩]
    exact ⟨rfl, rfl⟩
  · intro hC
    have hC' : factura_data.tipo_comprobante = 11 ∨ factura_data.tipo_comprobante = 12 ∨
        factura_data.tipo_comprobante = 13 := by simpa using hC
    have hnotA : ¬(factura_data.tipo_comprobante ∈ ([1, 2, 3] : List ℕ) ∧
        cliente.condicion_iva ≠ "Responsable Inscripto") := by
      rintro ⟨hm, -⟩; simp only [List.mem_cons, List.not_mem_nil, or_false] at hm; omega
    have hnotB : ¬(factura_data.tipo_comprobante ∈ ([6, 7, 8] : List ℕ) ∧
        cliente.condicion_iva = "Responsable Inscripto") := by
      rintro ⟨hm, -⟩; simp only [List.mem_cons, List.not_mem_nil, or_false] at hm; omega
    unfold crear_factura
    dsimp only
    rw [if_neg hnotA, if_neg hnotB]
    unfold emitir_factura get_ultimo_comprobante
    dsimp only
    exact ⟨_, List.mem_append_right _ (List.mem_singleton_self _)⟩

lemma emitir_doc_fields {env : ArcaEnv} {tipo_comprobante punto_venta concepto
    tipo_doc nro_doc cond_iva : ℕ} {importe_total importe_neto importe_iva : ℚ}
    {iva_detalle : List IvaDetalleItem} {fecha : Option ℕ} {today : ℕ}
    {fsd fsh fvp : Option ℕ} {d : FEVoucherData}
    (hd : ArcaCall.createVoucher d ∈
      (emitir_factura env tipo_comprobante punto_venta concepto tipo_doc nro_doc
        cond_iva importe_total importe_neto importe_iva iva_detalle fecha today
        fsd fsh fvp).2) :
    d.DocTipo = tipo_doc ∧ d.DocNro = nro_doc := by
  unfold emitir_factura get_ultimo_comprobante at hd
  dsimp only at hd
  simp only [List.mem_append, List.mem_cons, List.not_mem_nil, or_false,
    List.mem_singleton, reduceCtorEq, false_or] at hd
  obtain rfl := ArcaCall.createVoucher.inj hd
  constructor <;> (split_ifs <;> rfl)

/-- C5: on every voucher actually submitted by `crear_factura`, the receiver
document resolution holds: a Consumidor Final customer gets the anonymous code
99 with document number 0 when the computed grand total is below 23265 and the
personal-ID code 96 with the numeric tax ID otherwise; every other category
gets the fiscal-identifier code 80 with the tax ID. -/
theorem claim_C5 (cliente : Cliente) (factura_data : FacturaCreate) (env : ArcaEnv)
    (today : ℕ) (d : FEVoucherData)
    (hd : ArcaCall.createVoucher d ∈ (crear_factura (some cliente) factura_data env today).2) :
    (cliente.condicion_iva = "Consumidor Final" →
      ((calcular_totales (factura_data.items.map itemDump)).total < 23265 →
        d.DocTipo = 99 ∧ d.DocNro = 0) ∧
      (¬(calcular_totales (factura_data.items.map itemDump)).total < 23265 →
        d.DocTipo = 96 ∧ d.DocNro = cliente.cuit)) ∧
    (cliente.condicion_iva ≠ "Consumidor Final" →
      d.DocTipo = 80 ∧ d.DocNro = cliente.cuit) := by
  unfold crear_factura at hd
  dsimp only at hd
  by_cases h1 : factura_data.tipo_comprobante ∈ ([1, 2, 3] : List ℕ) ∧
      cliente.condicion_iva ≠ "Responsable Inscripto"
  · rw [if_pos h1] at hd
    simp at hd
  · rw [if_neg h1] at hd
    by_cases h2 : factura_data.tipo_comprobante ∈ ([6, 7, 8] : List ℕ) ∧
        cliente.condicion_iva = "Responsable Inscripto"
    · rw [if_pos h2] at hd
      simp at hd
    · rw [if_neg h2] at hd
      obtain ⟨hDocTipo, hDocNro⟩ := emitir_doc_fields hd
      refine ⟨fun hCF => ⟨fun hlt => ?_, fun hge => ?_⟩, fun hnCF => ?_⟩ <;>
        exact ⟨by rw [hDocTipo]; simp_all, by rw [hDocNro]; simp_all⟩

/-! ### Order-to-invoice mapper (app/services/tiendanube_service.py) -/

/-- Python `a or b` where `a` is an optional string: empty strings and absent
values are falsy and fall through to `b`. -/
def pyOr (a : Option String) (b : String) : String :=
  match a with
  | some s => if s = "" then b else s
  | none => b

/-- The `customer` sub-dict of an order. -/
structure TNCustomer where
  name : Option String
  identification : Option String
  email : Option String
  phone : Option String
deriving Repr, DecidableEq

/-- One product line of an order (`.get` defaults are applied by the mapper). -/
structure TNProduct where
  name : Option String
  quantity : Option ℚ
  price : Option ℚ
deriving Repr, DecidableEq

/-- An e-commerce order payload as read by the mapper. -/
structure TNOrder where
  id : Option ℕ
  number : Option ℕ
  customer : Option TNCustomer
  billing_name : Option String
  contact_identification : Option String
  billing_address : Option String
  contact_email : Option String
  contact_phone : Option String
  billing_customer_type : Option String
  billing_document_type : Option String
  products : List TNProduct
  total : Option ℚ
  subtotal : Option ℚ
deriving Repr, DecidableEq

/-- The customer block of the mapper's result. -/
structure ClienteData where
  razon_social : String
  cuit : String
  domicilio : String
  email : String
  telefono : String
  condicion_iva : String
deriving Repr, DecidableEq

/-- The mapper's result dict. -/
structure InvoiceData where
  cliente : ClienteData
  items : List ItemFacturaCreate
  total : ℚ
  subtotal : ℚ
  order_id : String
  order_number : Option ℕ
deriving Repr, DecidableEq

/-- `map_order_to_invoice_data` of app/services/tiendanube_service.py. -/
def map_order_to_invoice_data (order : TNOrder) : InvoiceData :=
  let customer := order.customer
  let condicion_iva :=
    if order.billing_customer_type = some "company" ∧
        order.billing_document_type = some "cuit" then "Responsable Inscripto"
    else "Consumidor Final"
  let items := order.products.map fun product =>
    ({ descripcion := product.name.getD "Producto"
       cantidad := product.quantity.getD 1
       precio_unitario := product.price.getD 0
       alicuota_iva := 5 } : ItemFacturaCreate)
  { cliente :=
      { razon_social := pyOr order.billing_name
          (pyOr (customer.bind TNCustomer.name) "Consumidor Final")
        cuit := pyOr order.contact_identification
          (pyOr (customer.bind TNCustomer.identification) "")
        domicilio := pyOr order.billing_address ""
        email := pyOr order.contact_email (pyOr (customer.bind TNCustomer.email) "")
        telefono := pyOr order.contact_phone (pyOr (customer.bind TNCustomer.phone) "")
        condicion_iva := condicion_iva }
    items := items
    total := order.total.getD 0
    subtotal := order.subtotal.getD 0
    order_id := match order.id with
      | some n => toString n
      | none => "None"
    order_number := order.number }

/-- C9: the mapper infers "Responsable Inscripto" exactly when the order's
billing customer type is "company" and its billing document type is "cuit",
defaults to "Consumidor Final" in every other case, and assigns every product
line the fixed 21% bracket (code 5). -/
theorem claim_C9 (order : TNOrder) :
    ((map_order_to_invoice_data order).cliente.condicion_iva = "Responsable Inscripto" ↔
      (order.billing_customer_type = some "company" ∧
        order.billing_document_type = some "cuit")) ∧
    (¬(order.billing_customer_type = some "company" ∧
        order.billing_document_type = some "cuit") →
      (map_order_to_invoice_data order).cliente.condicion_iva = "Consumidor Final") ∧
    (∀ it ∈ (map_order_to_invoice_data order).items, it.alicuota_iva = 5) := by
  refine ⟨?_, ?_, ?_⟩
  · unfold map_order_to_invoice_data
    dsimp only
    split_ifs with h
    · simp [h]
    · simp [h]
  · intro h
    unfold map_order_to_invoice_data
    dsimp only
    rw [if_neg h]
  · intro it hit
    unfold map_order_to_invoice_data at hit
    dsimp only at hit
    obtain ⟨p, -, rfl⟩ := List.mem_map.mp hit
    rfl

/-! ### Concrete instances -/

/-- A test authority: last authorized voucher 41, every submission approved. -/
def envTest : ArcaEnv where
  lastVoucher := fun _ _ => 41
  createVoucher := fun _ =>
    Except.ok { CAE := "71234567890123", CAEFchVto := "2025-12-31", Resultado := none }
  arca_punto_venta := 1

/-- A Consumidor Final customer. -/
def clienteCF : Cliente :=
  { razon_social := "Juan Perez", cuit := 20300040037, condicion_iva := "Consumidor Final" }

/-- A class-A request (code 1). -/
def fdA : FacturaCreate :=
  { tipo_comprobante := 1, concepto := 1, items := [⟨"producto", 1, 100, 5⟩],
    fecha := none, observaciones := none }

/-- A class-C request (code 11) with a single 0%-bracket item. -/
def fdC : FacturaCreate :=
  { tipo_comprobante := 11, concepto := 1, items := [⟨"producto", 1, 100, 3⟩],
    fecha := none, observaciones := none }

/-- The voucher record submitted for the class-C emission of `claim_C1_witness`. -/
def dC1 : FEVoucherData :=
  ⟨1, 1, 11, 1, 99, 0, 5, 42, 42, 20250101, 121, 0, 121, 0, 0, 0, "PES", 1,
    none, none, none, none⟩

/-- The voucher record submitted for the class-C creation of `claim_C5_witness`. -/
def dC5 : FEVoucherData :=
  ⟨1, 1, 11, 1, 99, 0, 5, 42, 42, 20250101, 100, 0, 100, 0, 0, 0, "PES", 1,
    none, none, none, none⟩

/-- The voucher record submitted for the class-A emission of `claim_C6_witness`. -/
def dC6 : FEVoucherData :=
  ⟨1, 1, 1, 1, 80, 20300040037, 1, 42, 42, 20250101, 121, 0, 100, 0, 21, 0, "PES", 1,
    some [⟨5, 100, 21⟩], none, none, none⟩

/-- The emission result returned by `envTest` for voucher 42. -/
def rEmision : EmisionResult := ⟨"71234567890123", "2025-12-31", 42, "A"⟩

/-- An order with no billing company data and one product line. -/
def orderTest : TNOrder :=
  { id := some 7, number := some 1001, customer := none,
    billing_name := some "Juan", contact_identification := none,
    billing_address := none, contact_email := none, contact_phone := none,
    billing_customer_type := none, billing_document_type := none,
    products := [⟨some "Prod", some 2, some 50⟩], total := some 100, subtotal := some 100 }

/-! ### Witnesses -/

/-- Witness for C1 at a concrete class-C emission. -/
theorem claim_C1_witness : dC1.ImpNeto = 121 ∧ dC1.ImpIVA = 0 ∧ dC1.Iva = none :=
  claim_C1 envTest 11 1 1 99 0 5 121 100 21 [⟨5, 100, 21⟩] none 20250101 none none none
    (by decide) dC1 (by decide)

/-- Witness for C2: a class-A request for a Consumidor Final customer. -/
theorem claim_C2_witness :
    (crear_factura (some clienteCF) fdA envTest 20250101).1 =
      Except.error ⟨400, detalleErrorFacturaA clienteCF.razon_social clienteCF.condicion_iva⟩ ∧
    (crear_factura (some clienteCF) fdA envTest 20250101).2 = [] :=
  (claim_C2 clienteCF fdA envTest 20250101).1 (by decide) (by decide)

/-- Witness for C4 at a single 21%-bracket item. -/
theorem claim_C4_witness :
    (calcular_totales [⟨"producto", 1, 100, some 5⟩]).iva_detalle.length =
      (([0, 3, 4, 5, 6] : List ℕ).filter
        fun a => decide (ivaAlicuota [⟨"producto", 1, 100, some 5⟩] a ≠ 0)).length :=
  (claim_C4 [⟨"producto", 1, 100, some 5⟩] (by decide)).2.1

/-- Witness for C5: the class-C creation for `clienteCF` submits document
type 99 and number 0 (total 100 below the threshold). -/
theorem claim_C5_witness : dC5.DocTipo = 99 ∧ dC5.DocNro = 0 :=
  ((claim_C5 clienteCF fdC envTest 20250101 dC5 (by
      simp [crear_factura, fdC, clienteCF, envTest, emitir_factura, get_ultimo_comprobante,
        calcular_totales, procesarItem, updGrupo, ALICUOTAS_IVA, CONDICION_IVA_ARCA,
        itemDump, dC5]
      norm_num)).1 rfl).1 (by
    simp [fdC, itemDump, calcular_totales, procesarItem, ALICUOTAS_IVA, updGrupo]
    norm_num)

/-- Witness for C6 at a concrete class-A emission against `envTest`. -/
theorem claim_C6_witness :
    ((emitir_factura envTest 1 1 1 80 20300040037 1 121 100 21 [⟨5, 100, 21⟩] none
        20250101 none none none).2.countP esCreateVoucher = 1) ∧
    (dC6.CbteDesde = envTest.lastVoucher 1 1 + 1 ∧
      dC6.CbteHasta = envTest.lastVoucher 1 1 + 1) ∧
    rEmision.numero = envTest.lastVoucher 1 1 + 1 :=
  have h := claim_C6 envTest 1 1 1 80 20300040037 1 121 100 21 [⟨5, 100, 21⟩] none
    20250101 none none none (by decide)
  ⟨h.1, h.2.1 dC6 (by decide), h.2.2 rEmision rfl⟩

/-- Witness for C7: altering the final digit of the valid CUIT to 0 fails both
validators. -/
theorem claim_C7_witness :
    validar_cuit (String.push "3050001091" (Char.ofNat 48)) = false ∧
    validar_cuit_schema (String.push "3050001091" (Char.ofNat 48)) = none :=
  claim_C7.2.2.1 0 (by decide) (by decide)

/-- Witness for C9: an order without billing company data maps to Consumidor
Final. -/
theorem claim_C9_witness :
    (map_order_to_invoice_data orderTest).cliente.condicion_iva = "Consumidor Final" :=
  (claim_C9 orderTest).2.1 (by decide)

/-- Witness for C10: a single item with bracket code 1 yields an empty VAT
detail and no error. -/
theorem claim_C10_witness :
    (calcular_totales [⟨"x", 1, 50, some 1⟩]).iva_detalle = [] :=
  ((claim_C10.1 [⟨"x", 1, 50, some 1⟩] (by decide)).2.2.2.2).1

end Facturacion
